import Mathlib

/-!
# k2 / Paddle interop glue (`k2/csrc/paddle_util.h`)

A shallow embedding of the array/tensor conversion templates of
`paddle_util.h`, followed by theorems about them.

Conventions of the embedding:

* a check failure (`K2_CHECK_EQ`, `K2_LOG(FATAL)`) aborts the process; it is
  modelled as `Except.error` carrying the check that failed;
* pointers are byte addresses into a byte-addressed `Memory`; `none` is a
  pointer whose address the model does not track (a buffer allocated by the
  framework itself);
* an element is observed through its object representation, the little-endian
  bit pattern of its `sizeof` bytes;
* the dimensions and the row stride of an array are `int32_t` values, those of a
  tensor are `int64_t` values kept as integers; handing an `int64_t` to an
  `int32_t` parameter wraps modulo `2 ^ 32` (`narrow_int32`).
-/

namespace K2

set_option autoImplicit false

/-! ## Enumerations -/

/-- Modelled from the spec: the device kinds of the array library
(`k2::DeviceType`, declared in `k2/csrc/context.h`, which is not part of the
excerpt). Exactly two kinds are supported, host memory (`kCpu`) and accelerator
memory (`kCuda`); `kUnk` is the remaining, unsupported value. -/
inductive DeviceType
  | kUnk
  | kCpu
  | kCuda
  deriving DecidableEq, Repr

/-- The framework's device kinds (`phi::AllocationType`). -/
inductive AllocationType
  | UNDEFINED
  | CPU
  | GPU
  | GPUPINNED
  | XPU
  | IPU
  | CUSTOM
  deriving DecidableEq, Repr

/-- The framework's element-type tags (`phi::DataType`). -/
inductive DataType
  | UNDEFINED
  | BOOL
  | UINT8
  | INT8
  | INT16
  | INT32
  | INT64
  | FLOAT16
  | BFLOAT16
  | FLOAT32
  | FLOAT64
  | COMPLEX64
  | COMPLEX128
  deriving DecidableEq, Repr

/-- The framework's memory layouts (`phi::DataLayout`). -/
inductive DataLayout
  | ANY
  | NHWC
  | NCHW
  deriving DecidableEq, Repr

/-- The C++ element types for which `paddle_util.h` specialises `ToScalarType`
(one constructor per `TO_SCALAR_TYPE` line). The primary template is only
declared, so these are the only types the generic conversions instantiate
with. -/
inductive CppType
  | float
  | double
  | int32_t
  | int64_t
  | bool
  deriving DecidableEq, Repr

/-- The check whose failure aborted the process. -/
inductive Fatal
  | UnsupportedDevice
  | ExpectedDim
  | ExpectedScalarType
  | ExpectedStride
  | ExpectedNumCols
  deriving DecidableEq, Repr

/-- The `K2_CHECK_EQ(a, b)` of `k2/csrc/log.h`: continue when the two values
are equal, abort otherwise. -/
def K2_CHECK_EQ {α : Type} [DecidableEq α] (a b : α) (e : Fatal) : Except Fatal Unit :=
  if a = b then Except.ok () else Except.error e

/-! ## Type/Device bridge -/

/-- Modelled from the spec: `ToPaddleDeviceType` is declared in
`paddle_util.h` (lines 36-43) and defined outside the excerpt. It maps host
memory to `CPU` and accelerator memory to `GPU`, and aborts on any other
kind. -/
def ToPaddleDeviceType : DeviceType → Except Fatal AllocationType
  | DeviceType.kCpu => Except.ok AllocationType.CPU
  | DeviceType.kCuda => Except.ok AllocationType.GPU
  | DeviceType.kUnk => Except.error Fatal.UnsupportedDevice

/-- Modelled from the spec: `FromTorchDeviceType` is declared in
`paddle_util.h` (lines 45-52) and defined outside the excerpt. It maps `CPU`
to host memory and `GPU` to accelerator memory, and aborts on any other
kind. -/
def FromTorchDeviceType : AllocationType → Except Fatal DeviceType
  | AllocationType.CPU => Except.ok DeviceType.kCpu
  | AllocationType.GPU => Except.ok DeviceType.kCuda
  | _ => Except.error Fatal.UnsupportedDevice

/-- The table `ToScalarType<T>::value` (`paddle_util.h` lines 65-69). -/
def ToScalarType : CppType → DataType
  | CppType.float => DataType.FLOAT32
  | CppType.double => DataType.FLOAT64
  | CppType.int32_t => DataType.INT32
  | CppType.int64_t => DataType.INT64
  | CppType.bool => DataType.BOOL

/-- The C++ `sizeof(T)` of the supported element types, in bytes. -/
def CppType.sizeof : CppType → Nat
  | CppType.float => 4
  | CppType.double => 8
  | CppType.int32_t => 4
  | CppType.int64_t => 8
  | CppType.bool => 1

/-- The framework's `phi::SizeOf(dtype)`, in bytes. -/
def DataType.sizeof : DataType → Nat
  | DataType.UNDEFINED => 0
  | DataType.BOOL => 1
  | DataType.UINT8 => 1
  | DataType.INT8 => 1
  | DataType.INT16 => 2
  | DataType.INT32 => 4
  | DataType.INT64 => 8
  | DataType.FLOAT16 => 2
  | DataType.BFLOAT16 => 2
  | DataType.FLOAT32 => 4
  | DataType.FLOAT64 => 8
  | DataType.COMPLEX64 => 8
  | DataType.COMPLEX128 => 16

/-! ## Memory -/

/-- Byte-addressed process memory. -/
abbrev Memory := Nat → Nat

/-- A raw pointer: a byte address, or `none` for a buffer whose address the
model does not track. -/
abbrev Ptr := Option Nat

/-- Pointer arithmetic in bytes. -/
def Ptr.add (p : Ptr) (bytes : Nat) : Ptr :=
  p.map (fun a => a + bytes)

/-- The little-endian bit pattern of the `n` bytes at `addr`. -/
def loadLE (mem : Memory) (addr : Nat) : Nat → Nat
  | 0 => 0
  | n + 1 => mem addr % 256 + 256 * loadLE mem (addr + 1) n

/-- Read the object representation of `size` bytes through a pointer. -/
def Ptr.load (mem : Memory) (p : Ptr) (size : Nat) : Option Nat :=
  p.map (fun a => loadLE mem a size)

/-- Reinterpret a 32-bit pattern as an `int32_t` (two's complement). -/
def toInt32 (w : Nat) : Int :=
  if w % 2 ^ 32 < 2 ^ 31 then ((w % 2 ^ 32 : Nat) : Int) else ((w % 2 ^ 32 : Nat) : Int) - 2 ^ 32

/-- The 32-bit pattern of an `int32_t`. -/
def int32Bits (x : Int) : Nat :=
  (x % 2 ^ 32).toNat

/-! ## Machine integers -/

/-- The C++ `int32_t`: the integers from `-2^31` to `2^31 - 1`. -/
abbrev int32_t : Type := { v : Int // -2147483648 ≤ v ∧ v < 2147483648 }

/-- The implicit conversion of an `int64_t` argument to an `int32_t`
parameter: the value is wrapped modulo `2 ^ 32` into the `int32_t` range. -/
def narrow_int32 (v : Int) : int32_t :=
  ⟨(v + 2147483648) % 4294967296 - 2147483648, by omega, by omega⟩

/-! ## Data model of the array library -/

/-- Modelled from the spec: the execution context of an array, a host (CPU)
context or an accelerator (CUDA) context, each reporting a device id
(`k2/csrc/context.h` is not part of the excerpt). -/
inductive Context
  | cpu (device_id : Int)
  | cuda (device_id : Int)
  deriving DecidableEq, Repr

/-- The accessor `Context::GetDeviceType()`. -/
def Context.GetDeviceType : Context → DeviceType
  | Context.cpu _ => DeviceType.kCpu
  | Context.cuda _ => DeviceType.kCuda

/-- The accessor `Context::GetDeviceId()`. -/
def Context.GetDeviceId : Context → Int
  | Context.cpu id => id
  | Context.cuda id => id

/-- Modelled from the spec: a Region is a block of raw memory that typed
arrays reference at different offsets; it belongs to a context and starts at
`data`. Reference counting is not modelled: a Region is kept alive by being
stored. -/
structure Region where
  context : Context
  data : Ptr
  deriving DecidableEq, Repr

/-- Modelled from the spec: a typed 1-D array (`Array1<T>`, `k2/csrc/array.h`
is not part of the excerpt) is an element type, a length, a Region and a byte
offset. The fields follow the constructor call `Array1<T>(dim, region,
byte_offset)` of `FromPaddle`; the length is an `int32_t`, stored as given. -/
structure Array1 (T : CppType) where
  dim : int32_t
  region : Region
  byte_offset : Nat
  deriving DecidableEq, Repr

/-- Modelled from the spec: a typed 2-D array (`Array2<T>`) adds a row count,
a column count and a row stride in elements, which may exceed the column count
for padding; the column stride is always 1. The fields follow the constructor
call `Array2<T>(dim0, dim1, elem_stride0, byte_offset, region)` of
`FromPaddle`; the three sizes are `int32_t` values, stored as given. -/
structure Array2 (T : CppType) where
  dim0 : int32_t
  dim1 : int32_t
  elem_stride0 : int32_t
  byte_offset : Nat
  region : Region
  deriving DecidableEq, Repr

/-- The element pointer `p + elem`, for elements of `size` bytes; an offset
before `p` is not tracked. -/
def Ptr.index (p : Ptr) (elem : Int) (size : Nat) : Ptr :=
  if 0 ≤ elem then p.add (elem.toNat * size) else none

/-- The accessor `Array1<T>::Dim()`, as the integer it returns. -/
def Array1.Dim {T : CppType} (a : Array1 T) : Int := a.dim.val

/-- The accessor `Array1<T>::Context()`: the context of the array's Region. -/
def Array1.Context {T : CppType} (a : Array1 T) : Context := a.region.context

/-- The accessor `Array1<T>::GetRegion()`. -/
def Array1.GetRegion {T : CppType} (a : Array1 T) : Region := a.region

/-- The accessor `Array1<T>::Data()`: the Region's start plus the byte offset. -/
def Array1.Data {T : CppType} (a : Array1 T) : Ptr := a.region.data.add a.byte_offset

/-- Element `i` of a 1-D array as stored in `mem` (`none` out of range or
through an untracked pointer). -/
def Array1.get {T : CppType} (mem : Memory) (a : Array1 T) (i : Nat) : Option Nat :=
  if (i : Int) < a.Dim then (a.Data.add (i * T.sizeof)).load mem T.sizeof else none

/-- The accessor `Array2<T>::Dim0()`, as the integer it returns. -/
def Array2.Dim0 {T : CppType} (a : Array2 T) : Int := a.dim0.val

/-- The accessor `Array2<T>::Dim1()`, as the integer it returns. -/
def Array2.Dim1 {T : CppType} (a : Array2 T) : Int := a.dim1.val

/-- The accessor `Array2<T>::ElemStride0()`, as the integer it returns. -/
def Array2.ElemStride0 {T : CppType} (a : Array2 T) : Int := a.elem_stride0.val

/-- The accessor `Array2<T>::Context()`. -/
def Array2.Context {T : CppType} (a : Array2 T) : Context := a.region.context

/-- The accessor `Array2<T>::GetRegion()`. -/
def Array2.GetRegion {T : CppType} (a : Array2 T) : Region := a.region

/-- The accessor `Array2<T>::Data()`. -/
def Array2.Data {T : CppType} (a : Array2 T) : Ptr := a.region.data.add a.byte_offset

/-- Element `(i, j)` of a 2-D array as stored in `mem`: rows are
`elem_stride0` elements apart, columns 1 element apart. -/
def Array2.get {T : CppType} (mem : Memory) (a : Array2 T) (i j : Nat) : Option Nat :=
  if (i : Int) < a.Dim0 ∧ (j : Int) < a.Dim1 then
    (a.Data.index ((i : Int) * a.ElemStride0 + (j : Int)) T.sizeof).load mem T.sizeof
  else none

/-! ## The framework tensor -/

/-- The framework's `phi::Place`: a device kind and a device id. -/
structure Place where
  alloc_type : AllocationType
  device : Int
  deriving DecidableEq, Repr

/-- The framework tensor as far as the glue code sees it: data pointer, shape,
element-type tag, layout, place, the tensor's own strides (in elements), and
the Region captured by the deleter it was created with, if any. Dimensions and
strides are `int64_t` values, kept as integers. -/
structure Tensor where
  data : Ptr
  dims : List Int
  dtype : DataType
  layout : DataLayout
  place : Place
  strides : List Int
  deleter : Option Region
  deriving DecidableEq, Repr

/-- The accessor `Tensor::numel()`: the product of the dimensions. -/
def Tensor.numel (t : Tensor) : Int := t.dims.prod

/-- The framework's `phi::stride(ddim)`: the strides of a dense row-major
tensor of that shape, `strides[n-1] = 1` and
`strides[i] = strides[i+1] * ddim[i+1]`. -/
def phi_stride : List Int → List Int
  | [] => []
  | _ :: rest => rest.prod :: phi_stride rest

/-- The framework's `paddle::empty(shape, dtype, place)`: a tensor that owns
newly allocated storage; no deleter is attached. -/
def paddle_empty (shape : List Int) (dtype : DataType) (place : Place) : Tensor :=
  { data := none, dims := shape, dtype := dtype, layout := DataLayout.NCHW, place := place,
    strides := phi_stride shape, deleter := none }

/-- The framework's `paddle::from_blob(data, shape, dtype, layout, place,
deleter)`: a dense row-major tensor over the caller's memory at `data`. This
overload takes no strides. `saved_region` is the Region captured by the
deleter lambda. -/
def from_blob (data : Ptr) (shape : List Int) (dtype : DataType) (layout : DataLayout)
    (place : Place) (saved_region : Region) : Tensor :=
  { data := data, dims := shape, dtype := dtype, layout := layout, place := place,
    strides := phi_stride shape, deleter := some saved_region }

/-- Whether a multi-index is within a shape. -/
def inBounds : List Nat → List Int → Bool
  | [], [] => true
  | i :: is, d :: ds => decide ((i : Int) < d) && inBounds is ds
  | _, _ => false

/-- The element offset of a multi-index under the given strides. -/
def elemOffset : List Nat → List Int → Int
  | i :: is, s :: ss => (i : Int) * s + elemOffset is ss
  | _, _ => 0

/-- The element of a tensor at a multi-index as stored in `mem`, addressed
through the tensor's own strides. -/
def Tensor.get (mem : Memory) (t : Tensor) (idx : List Nat) : Option Nat :=
  if inBounds idx t.dims then
    (t.data.index (elemOffset idx t.strides) t.dtype.sizeof).load mem t.dtype.sizeof
  else none

/-! ## Array/Tensor adapter (`paddle_util.h`) -/

/-- The `ToPaddle(Array1<T>&)` of `paddle_util.h` lines 86-108. The shape
`{array.Dim()}` widens the `int32_t` length to `int64_t`, which keeps its
value. -/
def ToPaddle {T : CppType} (array : Array1 T) : Except Fatal Tensor := do
  let device_type ← ToPaddleDeviceType array.Context.GetDeviceType
  let device_id := array.Context.GetDeviceId
  let device := Place.mk device_type device_id
  let scalar_type := ToScalarType T
  if array.Dim = 0 then
    pure (paddle_empty [0] scalar_type device)
  else
    pure (from_blob array.Data [array.Dim] scalar_type DataLayout.NCHW device array.GetRegion)

/-- The `FromPaddle<T>(paddle::Tensor)` of `paddle_util.h` lines 120-137.
`NewRegion` (defined in `paddle_context`, outside the excerpt) is a
parameter. The strides that are checked are `phi::stride(tensor.dims())`. The
`int64_t` result of `tensor.numel()` is handed to the `int32_t` length of
`Array1<T>` (line 135), which narrows it. -/
def FromPaddle (NewRegion : Tensor → Region) (T : CppType) (tensor : Tensor) :
    Except Fatal (Array1 T) := do
  K2_CHECK_EQ tensor.dims.length 1 Fatal.ExpectedDim
  K2_CHECK_EQ tensor.dtype (ToScalarType T) Fatal.ExpectedScalarType
  if tensor.numel ≠ 0 then
    let strides := phi_stride tensor.dims
    K2_CHECK_EQ (strides.getD 0 0) 1 Fatal.ExpectedStride
  let region := NewRegion tensor
  pure (Array1.mk (narrow_int32 tensor.numel) region 0)

/-- The `FromPaddle<T>(paddle::Tensor, Array2Tag)` of `paddle_util.h` lines
172-190. The `int64_t` values `tensor.dims()[0]`, `tensor.dims()[1]` and
`strides[0]` are handed to the `int32_t` sizes of `Array2<T>` (lines 184-186),
which narrows them. -/
def FromPaddleArray2 (NewRegion : Tensor → Region) (T : CppType) (tensor : Tensor) :
    Except Fatal (Array2 T) := do
  K2_CHECK_EQ tensor.dims.length 2 Fatal.ExpectedDim
  K2_CHECK_EQ tensor.dtype (ToScalarType T) Fatal.ExpectedScalarType
  let strides := phi_stride tensor.dims
  K2_CHECK_EQ (strides.getD 1 0) 1 Fatal.ExpectedStride
  let region := NewRegion tensor
  pure (Array2.mk (narrow_int32 (tensor.dims.getD 0 0)) (narrow_int32 (tensor.dims.getD 1 0))
    (narrow_int32 (strides.getD 0 0)) 0 region)

/-- The `ToPaddle(Array2<T>&)` of `paddle_util.h` lines 192-217. -/
def ToPaddleArray2 {T : CppType} (array : Array2 T) : Except Fatal Tensor := do
  let device_type ← ToPaddleDeviceType array.Context.GetDeviceType
  let device_id := array.Context.GetDeviceId
  let device := Place.mk device_type device_id
  let scalar_type := ToScalarType T
  if array.Dim0 = 0 ∨ array.Dim1 = 0 then
    pure (paddle_empty [array.Dim0, array.Dim1] scalar_type device)
  else
    pure (from_blob array.Data [array.Dim0, array.Dim1] scalar_type DataLayout.NCHW device
      array.GetRegion)

/-! ## Arc specialisation -/

/-- Modelled from the spec: an Arc is a fixed record of four 32-bit fields,
source state, destination state, label and score (`k2/csrc/fsa.h` is not part
of the excerpt). The three integer fields are kept as `int32_t` values; the
`float` score is kept as its 32-bit pattern. -/
structure Arc where
  src_state : Int
  dest_state : Int
  label : Int
  score : Nat
  deriving DecidableEq, Repr

/-- Modelled from the spec: an `Array1<Arc>`, a length, a Region and a byte
offset; every element occupies `sizeof(Arc) = 16` bytes. -/
structure ArcArray1 where
  dim : int32_t
  region : Region
  byte_offset : Nat
  deriving DecidableEq, Repr

/-- The accessor `Array1<Arc>::Dim()`, as the integer it returns. -/
def ArcArray1.Dim (a : ArcArray1) : Int := a.dim.val

/-- The accessor `Array1<Arc>::Context()`. -/
def ArcArray1.Context (a : ArcArray1) : Context := a.region.context

/-- The accessor `Array1<Arc>::GetRegion()`. -/
def ArcArray1.GetRegion (a : ArcArray1) : Region := a.region

/-- The accessor `Array1<Arc>::Data()`. -/
def ArcArray1.Data (a : ArcArray1) : Ptr := a.region.data.add a.byte_offset

/-- The Arc stored at an address: four consecutive 32-bit slots. -/
def loadArc (mem : Memory) (p : Nat) : Arc :=
  { src_state := toInt32 (loadLE mem p 4),
    dest_state := toInt32 (loadLE mem (p + 4) 4),
    label := toInt32 (loadLE mem (p + 8) 4),
    score := loadLE mem (p + 12) 4 }

/-- Arc `i` of an Arc array as stored in `mem`. -/
def ArcArray1.get (mem : Memory) (a : ArcArray1) (i : Nat) : Option Arc :=
  if (i : Int) < a.Dim then (a.Data.add (i * 16)).map (loadArc mem) else none

/-- Modelled from the spec: `ToPaddle(Array1<Arc>&)` is declared in
`paddle_util.h` (lines 139-153) and defined outside the excerpt. It
reinterprets every Arc as four consecutive 32-bit integer slots: the result is
a 2-D tensor over the array's memory with dtype int32, one row per Arc and
exactly 4 columns, which keeps the array's Region alive. -/
def ToPaddleArc (array : ArcArray1) : Except Fatal Tensor := do
  let device_type ← ToPaddleDeviceType array.Context.GetDeviceType
  let device_id := array.Context.GetDeviceId
  let device := Place.mk device_type device_id
  let scalar_type := ToScalarType CppType.int32_t
  pure (from_blob array.Data [array.Dim, 4] scalar_type DataLayout.NCHW device array.GetRegion)

/-- Modelled from the spec: `FromPaddle<Arc>(paddle::Tensor)` is declared in
`paddle_util.h` (lines 155-168) and defined outside the excerpt. It consumes a
2-D tensor with dtype int32 and exactly 4 columns and returns an array with one
Arc per row over the tensor's memory. `NewRegion` is a parameter, as in
`FromPaddle`; the row count is narrowed to the `int32_t` length as there. -/
def FromPaddleArc (NewRegion : Tensor → Region) (tensor : Tensor) : Except Fatal ArcArray1 := do
  K2_CHECK_EQ tensor.dims.length 2 Fatal.ExpectedDim
  K2_CHECK_EQ tensor.dtype (ToScalarType CppType.int32_t) Fatal.ExpectedScalarType
  K2_CHECK_EQ (tensor.dims.getD 1 0) 4 Fatal.ExpectedNumCols
  let region := NewRegion tensor
  pure (ArcArray1.mk (narrow_int32 (tensor.dims.getD 0 0)) region 0)

/-! ## Concrete inputs -/

/-- A region maker that aliases the tensor's memory, for instantiating the
`NewRegion` parameter at concrete inputs. -/
def aliasRegion (t : Tensor) : Region :=
  { context := if t.place.alloc_type = AllocationType.GPU then Context.cuda t.place.device
               else Context.cpu t.place.device,
    data := t.data }

/-- A memory holding the `int32_t` values 1, 2, 3, 4, 5, 6 at the addresses
64, 68, ..., 84 and zero bytes elsewhere. -/
def mem6 : Memory :=
  fun a => if 64 ≤ a ∧ a < 88 ∧ a % 4 = 0 then (a - 64) / 4 + 1 else 0

/-- A host Region starting at address 64. -/
def region64 : Region := { context := Context.cpu (-1), data := some 64 }

/-- A three-element `Array1<int32_t>` over `region64`. -/
def array3 : Array1 CppType.int32_t :=
  { dim := ⟨3, by decide⟩, region := region64, byte_offset := 0 }

/-- A padded 2 x 2 `Array2<int32_t>` with row stride 3 over `region64`: over
`mem6` its rows are `[1, 2]` and `[4, 5]`. -/
def paddedArray : Array2 CppType.int32_t :=
  { dim0 := ⟨2, by decide⟩, dim1 := ⟨2, by decide⟩, elem_stride0 := ⟨3, by decide⟩,
    byte_offset := 0, region := region64 }

/-- A rank-1 int32 tensor of three elements whose own stride is 2 (every
second element of a six-element buffer). -/
def stridedTensor1 : Tensor :=
  { data := some 64, dims := [3], dtype := DataType.INT32, layout := DataLayout.NCHW,
    place := Place.mk AllocationType.CPU 0, strides := [2], deleter := none }

/-- A rank-2 int32 tensor of shape 2 x 2 whose own strides are `[3, 1]` (the
first two columns of a 2 x 3 buffer). -/
def slicedTensor2 : Tensor :=
  { data := some 64, dims := [2, 2], dtype := DataType.INT32, layout := DataLayout.NCHW,
    place := Place.mk AllocationType.CPU 0, strides := [3, 1], deleter := none }

/-- A rank-2 int32 tensor of shape 3 x 2 whose own strides are `[1, 3]` (the
transpose of a 2 x 3 buffer): its innermost stride is 3. -/
def transposedTensor2 : Tensor :=
  { data := some 64, dims := [3, 2], dtype := DataType.INT32, layout := DataLayout.NCHW,
    place := Place.mk AllocationType.CPU 0, strides := [1, 3], deleter := none }

/-- A memory holding one Arc at address 64: source state 0, destination state
1, label -1 and score `0.1f`, whose 32 bits are `0x3DCCCCCD`. -/
def memArc : Memory :=
  fun a =>
    if a = 68 then 1
    else if 72 ≤ a ∧ a < 76 then 255
    else if a = 76 then 205
    else if a = 77 ∨ a = 78 then 204
    else if a = 79 then 61
    else 0

/-- A one-element `Array1<Arc>` over `region64`. -/
def arcArray : ArcArray1 := { dim := ⟨1, by decide⟩, region := region64, byte_offset := 0 }

/-- An empty `Array1<float>` whose Region has a null data pointer. -/
def emptyArray1 : Array1 CppType.float :=
  { dim := ⟨0, by decide⟩, region := { context := Context.cuda 0, data := some 0 },
    byte_offset := 0 }

/-- A 3 x 0 `Array2<double>` whose Region has a null data pointer. -/
def emptyArray2 : Array2 CppType.double :=
  { dim0 := ⟨3, by decide⟩, dim1 := ⟨0, by decide⟩, elem_stride0 := ⟨0, by decide⟩,
    byte_offset := 0, region := { context := Context.cpu (-1), data := some 0 } }

/-- A rank-2 float tensor, of the wrong rank for `FromPaddle<float>` and of the
wrong dtype for `FromPaddle<int32_t>(t, Array2Tag)`. -/
def floatTensor2 : Tensor :=
  { data := some 64, dims := [2, 3], dtype := DataType.FLOAT32, layout := DataLayout.NCHW,
    place := Place.mk AllocationType.CPU 0, strides := [3, 1], deleter := none }

theorem loadLE_lt (mem : Memory) (n : Nat) : ∀ addr, loadLE mem addr n < 256 ^ n := by
  induction n with
  | zero => intro addr; simp [loadLE]
  | succ n ih =>
    intro addr
    have h1 := ih (addr + 1)
    have h2 : mem addr % 256 < 256 := Nat.mod_lt _ (by decide)
    simp only [loadLE, pow_succ]
    generalize 256 ^ n = x at h1 ⊢
    omega

theorem int32Bits_toInt32 (w : Nat) (h : w < 2 ^ 32) : int32Bits (toInt32 w) = w := by
  unfold int32Bits toInt32
  rw [Nat.mod_eq_of_lt h]
  norm_num at h ⊢
  split <;> omega

theorem sizeof_ToScalarType (T : CppType) : (ToScalarType T).sizeof = T.sizeof := by
  cases T <;> rfl

theorem Ptr_add_zero (p : Ptr) : p.add 0 = p := by
  cases p <;> rfl

theorem aliasRegion_data (t : Tensor) : (aliasRegion t).data = t.data := rfl

theorem narrow_int32_fits (v : Int) (h1 : -2147483648 ≤ v) (h2 : v < 2147483648) :
    (narrow_int32 v).val = v := by
  simp only [narrow_int32]
  omega

theorem narrow_int32_val (x : int32_t) : narrow_int32 x.val = x :=
  Subtype.ext (narrow_int32_fits x.val x.property.1 x.property.2)

/-- C1. 1-D round trip: for every element type `T` with a `ToScalarType`
entry and every `Array1<T>` `a`, the empty one included,
`FromPaddle<T>(ToPaddle(a))` does not abort and returns an `Array1<T>` of the
same length holding, over any memory, the same element as `a` at every index.
`NewRegion` is any region maker whose region starts at the tensor's data
pointer. -/
theorem ToPaddle_FromPaddle_roundtrip (NewRegion : Tensor → Region)
    (hNR : ∀ t, (NewRegion t).data = t.data) (T : CppType) (a : Array1 T) :
    ∃ b : Array1 T, (ToPaddle a >>= FromPaddle NewRegion T) = Except.ok b ∧
      b.Dim = a.Dim ∧ ∀ mem i, b.get mem i = a.get mem i := by
  obtain ⟨dim, ⟨ctx, data⟩, off⟩ := a
  have hz : narrow_int32 0 = ⟨0, by decide⟩ := rfl
  have hneg : ∀ i : Nat, ¬ ((i : Int) < 0) := fun i => by omega
  cases ctx <;> by_cases h : dim.val = 0 <;>
    simp [ToPaddle, FromPaddle, ToPaddleDeviceType, Context.GetDeviceType, Array1.Context,
      Array1.Dim, h, bind, Except.bind, pure, Except.pure, K2_CHECK_EQ, paddle_empty, from_blob,
      Tensor.numel, phi_stride, Array1.get, Array1.Data, Array1.GetRegion, hNR, Ptr.add,
      narrow_int32_val, hz, hneg]

/-- C1 at a concrete input: the three-element `int32_t` array over `mem6`
comes back with its elements, the second of which is 2. -/
theorem ToPaddle_FromPaddle_roundtrip_witness :
    (∀ t, (aliasRegion t).data = t.data) ∧
    array3.get mem6 1 = some 2 ∧
    ∃ b : Array1 CppType.int32_t,
      (ToPaddle array3 >>= FromPaddle aliasRegion CppType.int32_t) = Except.ok b ∧
      b.Dim = array3.Dim ∧ ∀ mem i, b.get mem i = array3.get mem i :=
  ⟨aliasRegion_data, by decide,
    ToPaddle_FromPaddle_roundtrip aliasRegion aliasRegion_data CppType.int32_t array3⟩

/-- C2 at the failing input: for the padded 2 x 2 array with row stride 3,
whose second row over `mem6` is `[4, 5]`, `ToPaddle` returns a dense tensor
whose element (1, 0) is 3, and `FromPaddle<int32_t>(ToPaddle(a), Array2Tag)`
returns an array with row stride 2 whose element (1, 0) is 3. -/
theorem ToPaddleArray2_padded_misreads_rows :
    paddedArray.ElemStride0 = 3 ∧ paddedArray.Dim1 = 2 ∧
    Array2.get mem6 paddedArray 1 0 = some 4 ∧
    ∃ t b, ToPaddleArray2 paddedArray = Except.ok t ∧ t.strides = [2, 1] ∧
      t.get mem6 [1, 0] = some 3 ∧
      FromPaddleArray2 aliasRegion CppType.int32_t t = Except.ok b ∧
      b.Dim0 = 2 ∧ b.Dim1 = 2 ∧ b.ElemStride0 = 2 ∧
      Array2.get mem6 b 1 0 = some 3 :=
  ⟨rfl, rfl, by decide,
    from_blob (some 64) [2, 2] DataType.INT32 DataLayout.NCHW (Place.mk AllocationType.CPU (-1))
      region64,
    Array2.mk ⟨2, by decide⟩ ⟨2, by decide⟩ ⟨2, by decide⟩ 0
      (aliasRegion (from_blob (some 64) [2, 2] DataType.INT32 DataLayout.NCHW
        (Place.mk AllocationType.CPU (-1)) region64)),
    rfl, by decide, by decide, rfl, by decide, by decide, by decide, by decide⟩

/-- C3. Fatal path on rank or type mismatch: a tensor whose rank is not 1 or
whose dtype is not `ToScalarType<T>::value` makes `FromPaddle<T>` abort, with
the rank check failing first; a tensor whose rank is not 2 or whose dtype is
not `ToScalarType<T>::value` makes `FromPaddle<T>(t, Array2Tag)` abort
likewise. In neither case is an array returned. -/
theorem FromPaddle_fatal_on_rank_or_dtype_mismatch (NewRegion : Tensor → Region) (T : CppType)
    (t : Tensor) :
    (t.dims.length ≠ 1 → FromPaddle NewRegion T t = Except.error Fatal.ExpectedDim) ∧
    (t.dims.length = 1 → t.dtype ≠ ToScalarType T →
      FromPaddle NewRegion T t = Except.error Fatal.ExpectedScalarType) ∧
    (t.dims.length ≠ 1 ∨ t.dtype ≠ ToScalarType T →
      ∀ b, FromPaddle NewRegion T t ≠ Except.ok b) ∧
    (t.dims.length ≠ 2 → FromPaddleArray2 NewRegion T t = Except.error Fatal.ExpectedDim) ∧
    (t.dims.length = 2 → t.dtype ≠ ToScalarType T →
      FromPaddleArray2 NewRegion T t = Except.error Fatal.ExpectedScalarType) ∧
    (t.dims.length ≠ 2 ∨ t.dtype ≠ ToScalarType T →
      ∀ b, FromPaddleArray2 NewRegion T t ≠ Except.ok b) := by
  refine ⟨?_, ?_, ?_, ?_, ?_, ?_⟩
  · intro h
    simp [FromPaddle, K2_CHECK_EQ, h, bind, Except.bind]
  · intro h hd
    simp [FromPaddle, K2_CHECK_EQ, h, hd, bind, Except.bind]
  · intro h b
    by_cases hr : t.dims.length = 1
    · have hd : t.dtype ≠ ToScalarType T := by tauto
      simp [FromPaddle, K2_CHECK_EQ, hr, hd, bind, Except.bind]
    · simp [FromPaddle, K2_CHECK_EQ, hr, bind, Except.bind]
  · intro h
    simp [FromPaddleArray2, K2_CHECK_EQ, h, bind, Except.bind]
  · intro h hd
    simp [FromPaddleArray2, K2_CHECK_EQ, h, hd, bind, Except.bind]
  · intro h b
    by_cases hr : t.dims.length = 2
    · have hd : t.dtype ≠ ToScalarType T := by tauto
      simp [FromPaddleArray2, K2_CHECK_EQ, hr, hd, bind, Except.bind]
    · simp [FromPaddleArray2, K2_CHECK_EQ, hr, bind, Except.bind]

/-- C3 at a concrete input: the rank-2 float tensor aborts `FromPaddle<float>`
on the rank check and `FromPaddle<int32_t>(t, Array2Tag)` on the dtype
check. -/
theorem FromPaddle_fatal_on_rank_or_dtype_mismatch_witness :
    floatTensor2.dims.length ≠ 1 ∧
    FromPaddle aliasRegion CppType.float floatTensor2 = Except.error Fatal.ExpectedDim ∧
    floatTensor2.dims.length = 2 ∧ floatTensor2.dtype ≠ ToScalarType CppType.int32_t ∧
    FromPaddleArray2 aliasRegion CppType.int32_t floatTensor2 =
      Except.error Fatal.ExpectedScalarType :=
  ⟨by decide,
    (FromPaddle_fatal_on_rank_or_dtype_mismatch aliasRegion CppType.float floatTensor2).1
      (by decide),
    by decide, by decide,
    (FromPaddle_fatal_on_rank_or_dtype_mismatch aliasRegion CppType.int32_t floatTensor2).2.2.2.2.1
      (by decide) (by decide)⟩

/-- C4 at the failing input: the rank-1 int32 tensor with three elements and
own stride 2 is accepted by `FromPaddle<int32_t>`, which returns an array of
length 3 at byte offset 0; over `mem6` the tensor's element 1 is 3 and the
returned array's element 1 is 2. -/
theorem FromPaddle_accepts_strided_tensor :
    stridedTensor1.dims.length = 1 ∧ stridedTensor1.dtype = ToScalarType CppType.int32_t ∧
    stridedTensor1.numel = 3 ∧ stridedTensor1.strides = [2] ∧
    (∀ NewRegion : Tensor → Region, FromPaddle NewRegion CppType.int32_t stridedTensor1 =
      Except.ok (Array1.mk ⟨3, by decide⟩ (NewRegion stridedTensor1) 0)) ∧
    stridedTensor1.get mem6 [1] = some 3 ∧
    (Array1.mk ⟨3, by decide⟩ (aliasRegion stridedTensor1) 0 : Array1 CppType.int32_t).get
      mem6 1 = some 2 :=
  ⟨by decide, by decide, by decide, by decide, fun _ => rfl, by decide, by decide⟩

/-- The dense case of the 2-D round trip: when the row stride equals the
column count, `FromPaddle<T>(ToPaddle(a), Array2Tag)` does not abort and
returns an array with the same dimensions and, over any memory, the same
element at every position, and the tensor holds the same elements. -/
theorem ToPaddleArray2_FromPaddleArray2_dense (NewRegion : Tensor → Region)
    (hNR : ∀ t, (NewRegion t).data = t.data) (T : CppType) (a : Array2 T)
    (h0 : 0 < a.Dim0) (h1 : 0 < a.Dim1) (hs : a.ElemStride0 = a.Dim1) :
    ∃ t b, ToPaddleArray2 a = Except.ok t ∧
      (∀ mem i j, t.get mem [i, j] = a.get mem i j) ∧
      FromPaddleArray2 NewRegion T t = Except.ok b ∧
      b.Dim0 = a.Dim0 ∧ b.Dim1 = a.Dim1 ∧ ∀ mem i j, b.get mem i j = a.get mem i j := by
  obtain ⟨dim0, dim1, stride, off, ⟨ctx, data⟩⟩ := a
  simp only [Array2.Dim0, Array2.Dim1, Array2.ElemStride0] at h0 h1 hs
  have hst : stride = dim1 := Subtype.ext hs
  subst hst
  have hne0 : dim0.val ≠ 0 := by omega
  have hne1 : stride.val ≠ 0 := by omega
  have hsz := sizeof_ToScalarType T
  have hT : ∃ t, ToPaddleArray2 (Array2.mk dim0 stride stride off ⟨ctx, data⟩ : Array2 T) =
      Except.ok t ∧ t.data = Ptr.add data off ∧ t.dims = [dim0.val, stride.val] ∧
      t.strides = [stride.val, 1] ∧ t.dtype = ToScalarType T := by
    cases ctx <;>
      simp [ToPaddleArray2, ToPaddleDeviceType, Context.GetDeviceType, Array2.Context,
        Array2.Dim0, Array2.Dim1, hne0, hne1, bind, Except.bind, pure, Except.pure, from_blob,
        phi_stride, Array2.Data, Array2.GetRegion]
  obtain ⟨t, ht, hdata, hdims, hstr, hdt⟩ := hT
  refine ⟨t, Array2.mk dim0 stride stride 0 (NewRegion t), ht, ?_, ?_, rfl, rfl, ?_⟩
  · intro mem i j
    simp [Tensor.get, Array2.get, Array2.Data, Array2.Dim0, Array2.Dim1, Array2.ElemStride0,
      hdata, hdims, hstr, hdt, hsz, inBounds, elemOffset]
  · simp [FromPaddleArray2, K2_CHECK_EQ, hdims, hstr, hdt, phi_stride, bind, Except.bind, pure,
      Except.pure, narrow_int32_val]
  · intro mem i j
    simp [Array2.get, Array2.Data, Array2.Dim0, Array2.Dim1, Array2.ElemStride0, hNR, hdata,
      Ptr_add_zero]

/-- C5. Empty-input handling: for a 1-D array with `Dim() == 0`, `ToPaddle`
does not abort and returns the tensor made by `paddle::empty` with shape
`[0]`; for a 2-D array with `Dim0() == 0` or `Dim1() == 0` it returns the one
made by `paddle::empty` with shape `[Dim0, Dim1]`. The tensor has dtype
`ToScalarType<T>::value`, the device kind and id of the array's context, no
deleter, and is not the result of any `from_blob` call. -/
theorem ToPaddle_empty_input :
    (∀ (T : CppType) (a : Array1 T), a.Dim = 0 →
      ∃ t, ToPaddle a = Except.ok t ∧ t = paddle_empty [0] t.dtype t.place ∧
        t.dims = [0] ∧ t.dtype = ToScalarType T ∧
        ToPaddleDeviceType a.Context.GetDeviceType = Except.ok t.place.alloc_type ∧
        t.place.device = a.Context.GetDeviceId ∧ t.deleter = none ∧
        ∀ p s d l pl r, t ≠ from_blob p s d l pl r) ∧
    (∀ (T : CppType) (a : Array2 T), a.Dim0 = 0 ∨ a.Dim1 = 0 →
      ∃ t, ToPaddleArray2 a = Except.ok t ∧ t = paddle_empty [a.Dim0, a.Dim1] t.dtype t.place ∧
        t.dims = [a.Dim0, a.Dim1] ∧ t.dtype = ToScalarType T ∧
        ToPaddleDeviceType a.Context.GetDeviceType = Except.ok t.place.alloc_type ∧
        t.place.device = a.Context.GetDeviceId ∧ t.deleter = none ∧
        ∀ p s d l pl r, t ≠ from_blob p s d l pl r) := by
  constructor
  · intro T a h
    obtain ⟨dim, ⟨ctx, data⟩, off⟩ := a
    simp only [Array1.Dim] at h
    cases ctx <;>
      simp [ToPaddle, ToPaddleDeviceType, Context.GetDeviceType, Context.GetDeviceId,
        Array1.Context, Array1.Dim, h, bind, Except.bind, pure, Except.pure, paddle_empty,
        from_blob]
  · intro T a h
    obtain ⟨dim0, dim1, stride, off, ⟨ctx, data⟩⟩ := a
    simp only [Array2.Dim0, Array2.Dim1] at h
    cases ctx <;>
      simp [ToPaddleArray2, ToPaddleDeviceType, Context.GetDeviceType, Context.GetDeviceId,
        Array2.Context, Array2.Dim0, Array2.Dim1, h, bind, Except.bind, pure, Except.pure,
        paddle_empty, from_blob]

/-- C5 at concrete inputs: an empty `Array1<float>` on accelerator 0 and a
3 x 0 `Array2<double>` on the host, both with a null data pointer. -/
theorem ToPaddle_empty_input_witness :
    emptyArray1.Dim = 0 ∧
    (∃ t, ToPaddle emptyArray1 = Except.ok t ∧ t.dims = [0] ∧ t.dtype = DataType.FLOAT32 ∧
      t.deleter = none) ∧
    (emptyArray2.Dim0 = 0 ∨ emptyArray2.Dim1 = 0) ∧
    (∃ t, ToPaddleArray2 emptyArray2 = Except.ok t ∧ t.dims = [3, 0] ∧
      t.dtype = DataType.FLOAT64 ∧ t.deleter = none) := by
  obtain ⟨t1, h1, -, hd1, ht1, -, -, hdel1, -⟩ :=
    ToPaddle_empty_input.1 CppType.float emptyArray1 rfl
  obtain ⟨t2, h2, -, hd2, ht2, -, -, hdel2, -⟩ :=
    ToPaddle_empty_input.2 CppType.double emptyArray2 (Or.inr rfl)
  exact ⟨rfl, ⟨t1, h1, hd1, ht1, hdel1⟩, Or.inr rfl, ⟨t2, h2, hd2, ht2, hdel2⟩⟩

/-- C6. Non-empty 1-D conversion: for an `Array1<T>` with `Dim() > 0`,
`ToPaddle` does not abort and returns a tensor of shape `[Dim()]` and dtype
`ToScalarType<T>::value`, on the device kind and id of the array's context,
whose data pointer is `Data()` and whose deleter holds the array's Region. -/
theorem ToPaddle_nonempty (T : CppType) (a : Array1 T) (h : 0 < a.Dim) :
    ∃ t, ToPaddle a = Except.ok t ∧ t.dims = [a.Dim] ∧ t.dtype = ToScalarType T ∧
      ToPaddleDeviceType a.Context.GetDeviceType = Except.ok t.place.alloc_type ∧
      t.place.device = a.Context.GetDeviceId ∧
      t.data = a.Data ∧ t.deleter = some a.GetRegion := by
  obtain ⟨dim, ⟨ctx, data⟩, off⟩ := a
  simp only [Array1.Dim] at h
  have hne : dim.val ≠ 0 := by omega
  cases ctx <;>
    simp [ToPaddle, ToPaddleDeviceType, Context.GetDeviceType, Context.GetDeviceId,
      Array1.Context, Array1.Dim, Array1.Data, Array1.GetRegion, hne, bind, Except.bind, pure,
      Except.pure, from_blob]

/-- C6 at a concrete input: the three-element host array at address 64. -/
theorem ToPaddle_nonempty_witness :
    0 < array3.Dim ∧
    ∃ t, ToPaddle array3 = Except.ok t ∧ t.dims = [array3.Dim] ∧
      t.dtype = ToScalarType CppType.int32_t ∧
      ToPaddleDeviceType array3.Context.GetDeviceType = Except.ok t.place.alloc_type ∧
      t.place.device = array3.Context.GetDeviceId ∧
      t.data = array3.Data ∧ t.deleter = some array3.GetRegion :=
  ⟨by decide, ToPaddle_nonempty CppType.int32_t array3 (by decide)⟩

/-- C7 at the failing inputs: the 2 x 2 int32 tensor with own strides `[3, 1]`
is converted by `FromPaddle<int32_t>(t, Array2Tag)` to an array with row
stride 2, and the 3 x 2 int32 tensor with own strides `[1, 3]`, whose
innermost stride is 3, is converted to an array with row stride 2 instead of
aborting. -/
theorem FromPaddleArray2_ignores_tensor_strides :
    slicedTensor2.dims = [2, 2] ∧ slicedTensor2.dtype = ToScalarType CppType.int32_t ∧
    slicedTensor2.strides = [3, 1] ∧
    (∀ NewRegion : Tensor → Region, FromPaddleArray2 NewRegion CppType.int32_t slicedTensor2 =
      Except.ok (Array2.mk ⟨2, by decide⟩ ⟨2, by decide⟩ ⟨2, by decide⟩ 0
        (NewRegion slicedTensor2))) ∧
    slicedTensor2.get mem6 [1, 0] = some 4 ∧
    (Array2.mk ⟨2, by decide⟩ ⟨2, by decide⟩ ⟨2, by decide⟩ 0 (aliasRegion slicedTensor2) :
      Array2 CppType.int32_t).get mem6 1 0 = some 3 ∧
    transposedTensor2.dims = [3, 2] ∧ transposedTensor2.dtype = ToScalarType CppType.int32_t ∧
    transposedTensor2.strides = [1, 3] ∧
    (∀ NewRegion : Tensor → Region,
      FromPaddleArray2 NewRegion CppType.int32_t transposedTensor2 =
        Except.ok (Array2.mk ⟨3, by decide⟩ ⟨2, by decide⟩ ⟨2, by decide⟩ 0
          (NewRegion transposedTensor2))) :=
  ⟨rfl, rfl, rfl, fun _ => rfl, by decide, by decide, rfl, rfl, rfl, fun _ => rfl⟩

/-! ### Type/Device bridge -/

/-- C8. Element-type table: `ToScalarType` is defined for exactly the five
types float, double, int32_t, int64_t and bool, which it maps to FLOAT32,
FLOAT64, INT32, INT64 and BOOL; it is injective, so a dtype is
`ToScalarType<T>::value` for at most one `T`, and the dtypes it reaches are
exactly those five. -/
theorem ToScalarType_table :
    ToScalarType CppType.float = DataType.FLOAT32 ∧
    ToScalarType CppType.double = DataType.FLOAT64 ∧
    ToScalarType CppType.int32_t = DataType.INT32 ∧
    ToScalarType CppType.int64_t = DataType.INT64 ∧
    ToScalarType CppType.bool = DataType.BOOL ∧
    (∀ T : CppType, T ∈ [CppType.float, CppType.double, CppType.int32_t, CppType.int64_t,
      CppType.bool]) ∧
    Function.Injective ToScalarType ∧
    (∀ (d : DataType) (T1 T2 : CppType), ToScalarType T1 = d → ToScalarType T2 = d → T1 = T2) ∧
    (∀ d : DataType, (∃ T, ToScalarType T = d) ↔
      d ∈ [DataType.FLOAT32, DataType.FLOAT64, DataType.INT32, DataType.INT64,
        DataType.BOOL]) := by
  refine ⟨rfl, rfl, rfl, rfl, rfl, ?_, ?_, ?_, ?_⟩
  · intro T
    cases T <;> simp
  · intro T1 T2 h
    cases T1 <;> cases T2 <;> simp [ToScalarType] at h ⊢
  · intro d T1 T2 h1 h2
    subst h1
    cases T1 <;> cases T2 <;> simp [ToScalarType] at h2 ⊢
  · intro d
    constructor
    · rintro ⟨T, rfl⟩
      cases T <;> simp [ToScalarType]
    · intro h
      simp only [List.mem_cons, List.mem_singleton, List.not_mem_nil, or_false] at h
      rcases h with h | h | h | h | h
      · exact ⟨CppType.float, h.symm⟩
      · exact ⟨CppType.double, h.symm⟩
      · exact ⟨CppType.int32_t, h.symm⟩
      · exact ⟨CppType.int64_t, h.symm⟩
      · exact ⟨CppType.bool, h.symm⟩

/-- C10. Device-kind bridge: `ToPaddleDeviceType` maps kCpu to CPU and kCuda to
GPU, `FromTorchDeviceType` maps CPU to kCpu and GPU to kCuda, each undoes the
other wherever it returns, and on every other device kind each aborts instead
of returning a value. -/
theorem device_bridge :
    ToPaddleDeviceType DeviceType.kCpu = Except.ok AllocationType.CPU ∧
    ToPaddleDeviceType DeviceType.kCuda = Except.ok AllocationType.GPU ∧
    FromTorchDeviceType AllocationType.CPU = Except.ok DeviceType.kCpu ∧
    FromTorchDeviceType AllocationType.GPU = Except.ok DeviceType.kCuda ∧
    (∀ d a, ToPaddleDeviceType d = Except.ok a → FromTorchDeviceType a = Except.ok d) ∧
    (∀ a d, FromTorchDeviceType a = Except.ok d → ToPaddleDeviceType d = Except.ok a) ∧
    (∀ d, d ≠ DeviceType.kCpu → d ≠ DeviceType.kCuda →
      ToPaddleDeviceType d = Except.error Fatal.UnsupportedDevice) ∧
    (∀ a, a ≠ AllocationType.CPU → a ≠ AllocationType.GPU →
      FromTorchDeviceType a = Except.error Fatal.UnsupportedDevice) := by
  refine ⟨rfl, rfl, rfl, rfl, ?_, ?_, ?_, ?_⟩
  · intro d a h
    cases d <;> simp [ToPaddleDeviceType] at h <;> subst h <;> rfl
  · intro a d h
    cases a <;> simp [FromTorchDeviceType] at h <;> subst h <;> rfl
  · intro d h1 h2
    cases d <;> simp_all [ToPaddleDeviceType]
  · intro a h1 h2
    cases a <;> simp_all [FromTorchDeviceType]

/-- C10 at concrete inputs: the unknown device kind and the XPU kind abort. -/
theorem device_bridge_witness :
    ToPaddleDeviceType DeviceType.kUnk = Except.error Fatal.UnsupportedDevice ∧
    FromTorchDeviceType AllocationType.XPU = Except.error Fatal.UnsupportedDevice :=
  ⟨device_bridge.2.2.2.2.2.2.1 DeviceType.kUnk (by decide) (by decide),
    device_bridge.2.2.2.2.2.2.2 AllocationType.XPU (by decide) (by decide)⟩

/-! ### Arc specialisation -/

/-- C9. Arc conversion: for every `Array1<Arc>` `a`, `ToPaddle(a)` does not
abort and is a 2-D int32 tensor with `a.Dim()` rows and 4 columns whose row
`i` holds the 32-bit patterns of the four fields of arc `i`, the score's
pattern unchanged; `FromPaddle<Arc>(ToPaddle(a))` does not abort and returns
an array of the same length whose every arc has the same four fields, over any
memory. `NewRegion` is any region maker whose region starts at the tensor's
data pointer. -/
theorem Arc_roundtrip_bit_exact (NewRegion : Tensor → Region)
    (hNR : ∀ t, (NewRegion t).data = t.data) (a : ArcArray1) :
    ∃ t b, ToPaddleArc a = Except.ok t ∧ t.dims = [a.Dim, 4] ∧ t.dtype = DataType.INT32 ∧
      (∀ mem i arc, a.get mem i = some arc →
        t.get mem [i, 0] = some (int32Bits arc.src_state) ∧
        t.get mem [i, 1] = some (int32Bits arc.dest_state) ∧
        t.get mem [i, 2] = some (int32Bits arc.label) ∧
        t.get mem [i, 3] = some arc.score) ∧
      FromPaddleArc NewRegion t = Except.ok b ∧ b.Dim = a.Dim ∧
      ∀ mem i, b.get mem i = a.get mem i := by
  obtain ⟨dim, ⟨ctx, data⟩, off⟩ := a
  have hT : ∃ t, ToPaddleArc (ArcArray1.mk dim ⟨ctx, data⟩ off) = Except.ok t ∧
      t.data = Ptr.add data off ∧ t.dims = [dim.val, 4] ∧ t.strides = [4, 1] ∧
      t.dtype = DataType.INT32 := by
    cases ctx <;>
      simp [ToPaddleArc, ToPaddleDeviceType, Context.GetDeviceType, ArcArray1.Context,
        ArcArray1.Dim, ArcArray1.Data, ArcArray1.GetRegion, bind, Except.bind, pure,
        Except.pure, from_blob, phi_stride, ToScalarType]
  obtain ⟨t, ht, hdata, hdims, hstr, hdt⟩ := hT
  refine ⟨t, ArcArray1.mk dim (NewRegion t) 0, ht, hdims, hdt, ?_, ?_, rfl, ?_⟩
  · intro mem i arc harc
    have h32 : ∀ addr, int32Bits (toInt32 (loadLE mem addr 4)) = loadLE mem addr 4 :=
      fun addr => int32Bits_toInt32 _ (loadLE_lt mem 4 addr)
    cases data with
    | none => simp [ArcArray1.get, ArcArray1.Data, Ptr.add] at harc
    | some d =>
      simp only [ArcArray1.get, ArcArray1.Data, ArcArray1.Dim, Ptr.add, Option.map_some'] at harc
      split at harc
      · rename_i hi
        simp only [Option.some.injEq] at harc
        subst harc
        have p0 : (0 : Int) ≤ (i : Int) * 4 + (0 * 1 + 0) := by omega
        have p1 : (0 : Int) ≤ (i : Int) * 4 + (1 * 1 + 0) := by omega
        have p2 : (0 : Int) ≤ (i : Int) * 4 + (2 * 1 + 0) := by omega
        have p3 : (0 : Int) ≤ (i : Int) * 4 + (3 * 1 + 0) := by omega
        have e0 : d + off + ((i : Int) * 4 + (0 * 1 + 0)).toNat * 4 = d + off + i * 16 := by
          omega
        have e1 : d + off + ((i : Int) * 4 + (1 * 1 + 0)).toNat * 4 = d + off + i * 16 + 4 := by
          omega
        have e2 : d + off + ((i : Int) * 4 + (2 * 1 + 0)).toNat * 4 = d + off + i * 16 + 8 := by
          omega
        have e3 : d + off + ((i : Int) * 4 + (3 * 1 + 0)).toNat * 4 = d + off + i * 16 + 12 := by
          omega
        simp only [Tensor.get, hdata, hdims, hstr, hdt, inBounds, elemOffset, Ptr.index, Ptr.add,
          Ptr.load, DataType.sizeof, loadArc, h32, Nat.cast_ofNat, Nat.cast_zero, Nat.cast_one,
          Option.map_some', Option.map_map, Function.comp, p0, p1, p2, p3, e0, e1, e2, e3, hi,
          if_true, decide_True, Bool.true_and, Bool.and_true, Bool.and_self]
        simp
      · simp at harc
  · simp [FromPaddleArc, K2_CHECK_EQ, hdims, hdt, ToScalarType, bind, Except.bind, pure,
      Except.pure, narrow_int32_val]
  · intro mem i
    simp [ArcArray1.get, ArcArray1.Data, ArcArray1.Dim, hNR, hdata, Ptr_add_zero]

/-- C9 at a concrete input: an arc with label -1 and score `0.1f` (bits
`0x3DCCCCCD = 1036831949`) is seen in the tensor as the slots
`0, 1, 0xFFFFFFFF, 0x3DCCCCCD` and comes back with the identical 32 score
bits. -/
theorem Arc_roundtrip_bit_exact_witness :
    (∀ t, (aliasRegion t).data = t.data) ∧
    arcArray.get memArc 0 = some (Arc.mk 0 1 (-1) 1036831949) ∧
    ∃ t b, ToPaddleArc arcArray = Except.ok t ∧ t.dims = [arcArray.Dim, 4] ∧
      t.dtype = DataType.INT32 ∧
      (∀ mem i arc, arcArray.get mem i = some arc →
        t.get mem [i, 0] = some (int32Bits arc.src_state) ∧
        t.get mem [i, 1] = some (int32Bits arc.dest_state) ∧
        t.get mem [i, 2] = some (int32Bits arc.label) ∧
        t.get mem [i, 3] = some arc.score) ∧
      FromPaddleArc aliasRegion t = Except.ok b ∧ b.Dim = arcArray.Dim ∧
      ∀ mem i, b.get mem i = arcArray.get mem i :=
  ⟨aliasRegion_data, by decide, Arc_roundtrip_bit_exact aliasRegion aliasRegion_data arcArray⟩
/-! ### The strides seen by `FromPaddle` -/

end K2
